import Mathlib

/-!
Shallow embedding of the resilient acquisition engine of the streamrip
fork under verification (source files client/tidal.py and media/track.py):
the request executor with its retry classification, the credential
refresh, the concurrent paginated fetch with ordered merge, the
ledger and filesystem reconciliation in the pending-track resolvers,
and the per-session downloadable guard.
-/

namespace Streamrip

/- ===================================================================
   TidalClient.api request  (client/tidal.py, lines 369-414)

   The Python loop is `for attempt in range(retries + 1)`, each
   iteration performing one HTTP GET under the semaphore and then
   classifying the outcome.  We embed one attempt outcome as a datum
   and the loop as fuel recursion over the remaining iterations.
   =================================================================== -/

/-- Outcome of one attempt of the request loop: the observed HTTP status
class (with an abstract decoded body for 2xx), or a transport failure
(aiohttp.ClientOSError or asyncio.TimeoutError). -/
inductive ApiOutcome where
  | success (body : Nat)
  | http429 (retryAfter : Option Nat)
  | http401
  | http404
  | httpOther (status : Nat)
  | transport
  deriving DecidableEq

/-- Terminal errors the request loop can raise. -/
inductive ApiError where
  | nonStreamable (msg : String)
  | unauthorized
  | httpError (status : Nat)
  | connectionFailed
  deriving DecidableEq

/-- Result of classifying one attempt inside the loop body: return a
value, raise an error, or fall through to the next loop iteration. -/
inductive StepRes where
  | ret (v : Nat)
  | err (e : ApiError)
  | retry
  deriving DecidableEq

/-- Classification of one attempt, translated from the loop body of
tidal.py lines 384-412.  Crucially, the `raise NonStreamableError` on a
404 (line 398) sits inside the `try` whose final handler is a bare
`except Exception as e`, so it is caught there: since the message
"Not Found" does not contain "401", the handler re-raises only when
`attempt == retries` and otherwise falls through to the next iteration.
The same holds for the `Exception("Unauthorized (401)")` raised on a 401
with `attempt >= 2` (its message contains "401", but the handler also
requires `attempt < 2` to refresh) and for `raise_for_status` errors.
A transport error (`except (ClientOSError, TimeoutError)`) sleeps and
continues unconditionally, even on the final iteration. -/
def classify (retries attempt : Nat) (o : ApiOutcome) : StepRes :=
  match o with
  | .success b => .ret b
  | .http429 _ => .retry
  | .http401 =>
      if attempt < 2 then .retry
      else if attempt == retries then .err .unauthorized else .retry
  | .http404 =>
      if attempt == retries then .err (.nonStreamable "Not Found") else .retry
  | .httpOther s =>
      if attempt == retries then .err (.httpError s) else .retry
  | .transport => .retry

/-- The retry loop of the request executor.  `fuel` counts the remaining
iterations of `range(retries + 1)`; `attempt` is the current index.  If
the loop exhausts without returning, line 414 raises
`Exception("Connection failed.")`.  The second component counts the
attempts actually performed. -/
def api_request_go (outcomes : Nat → ApiOutcome) (retries : Nat) :
    Nat → Nat → Except ApiError Nat × Nat
  | 0, attempt => (.error .connectionFailed, attempt)
  | fuel + 1, attempt =>
      match classify retries attempt (outcomes attempt) with
      | .ret v => (.ok v, attempt + 1)
      | .err e => (.error e, attempt + 1)
      | .retry => api_request_go outcomes retries fuel (attempt + 1)

/-- Embedding of `TidalClient._api_request` given the per-attempt
outcomes of the underlying HTTP GET; returns the final result and the
number of attempts performed. -/
def api_request (outcomes : Nat → ApiOutcome) (retries : Nat) :
    Except ApiError Nat × Nat :=
  api_request_go outcomes retries (retries + 1) 0

/- ===================================================================
   Backoff on HTTP 429  (client/tidal.py, line 387)

   wait = int(resp.headers.get("Retry-After", 10)) + random.randint(5, 10)

   The wait is computed inside the attempt loop, where the loop index
   `attempt` is in scope, but the formula does not use it; we keep the
   index as an (unused) argument so that dependence on the attempt can
   be stated and refuted. -/

/-- Backoff delay computed for an HTTP 429 response: the Retry-After
header value if present, else 10, plus a jitter drawn uniformly from
`randint(5, 10)`. -/
def tidalRetryWait (_attempt : Nat) (retryAfter : Option Nat) (jitter : Nat) : Nat :=
  (retryAfter.getD 10) + jitter

/-- Six times the expected delay absent a Retry-After hint: the sum of
the delay over the six equiprobable jitter values 5..10. -/
def expWait6 (attempt : Nat) : Nat :=
  ((List.range 6).map (fun k => tidalRetryWait attempt none (5 + k))).sum

end Streamrip

namespace Streamrip

/- ===================================================================
   Theorems for claims C2, C5, C8
   =================================================================== -/

/-- Helper: a run whose every attempt is a transport error retries every
iteration and exits the loop with `Connection failed.` after using all
its fuel. -/
theorem api_request_go_transport (retries : Nat) :
    ∀ fuel attempt, api_request_go (fun _ => ApiOutcome.transport) retries fuel attempt
      = (.error .connectionFailed, attempt + fuel) := by
  intro fuel
  induction fuel with
  | zero => intro attempt; simp [api_request_go]
  | succ n ih =>
      intro attempt
      simp only [api_request_go, classify]
      rw [ih (attempt + 1)]
      congr 1
      omega

/-- C2: the claim says a first HTTP 404 raises the terminal
NonStreamableError immediately with no further attempts.  Evaluating the
embedded loop at the failing inputs shows the code instead retries: with
every attempt returning 404 and the default `retries = 10`, the
NonStreamableError only propagates after 11 attempts; and a 404 followed
by a success is swallowed entirely, the request succeeding on attempt 2. -/
theorem c2_404_is_retried :
    api_request (fun _ => ApiOutcome.http404) 10
      = (.error (.nonStreamable "Not Found"), 11)
    ∧ api_request (fun a => if a = 0 then ApiOutcome.http404 else ApiOutcome.success 42) 10
      = (.ok 42, 2) := by
  constructor <;> rfl

/-- C5 counterexample: with the default `retries = 10` the all-transient
run performs 11 attempts, not 10, before raising the terminal error, so
the attempt count claimed (`maxAttempts = retries = 10`) is off by one. -/
theorem c5_attempt_count_counterexample :
    api_request (fun _ => ApiOutcome.transport) 10
      = (.error .connectionFailed, 11)
    ∧ (11 : Nat) ≠ 10 := by
  constructor
  · rfl
  · decide

/-- C5 amended: over a request whose every attempt ends in a transient
transport error, the request loop terminates by raising the terminal
`Connection failed.` error after exactly `retries + 1` attempts (the
loop is `for attempt in range(retries + 1)`); it never loops forever. -/
theorem c5_retry_termination (retries : Nat) :
    api_request (fun _ => ApiOutcome.transport) retries
      = (.error .connectionFailed, retries + 1) := by
  unfold api_request
  rw [api_request_go_transport]
  congr 1
  omega

/-- C8 counterexample: the claim asserts exponential growth of the
expected backoff across attempts (`base * 2^attempt` plus jitter), but
the computed delay does not depend on the attempt index at all: six
times the expected delay is 105 at attempt 0 and still 105 (not 210) at
attempt 1. -/
theorem c8_no_exponential_growth :
    expWait6 0 = 105 ∧ expWait6 1 = 105 ∧ expWait6 1 ≠ 2 * expWait6 0 := by
  refine ⟨by rfl, by rfl, by decide⟩

/-- C8 amended: absent a Retry-After hint the computed delay for an HTTP
429 is `10 + jitter` with jitter in `[5, 10]`, hence always at least 15
(in particular non-negative) and identical — so weakly non-decreasing,
in expectation as well — across successive attempts; there is no
exponential growth in the attempt index. -/
theorem c8_backoff_nonneg_constant (attempt jitter : Nat)
    (h5 : 5 ≤ jitter) (h10 : jitter ≤ 10) :
    tidalRetryWait attempt none jitter = 10 + jitter
    ∧ 15 ≤ tidalRetryWait attempt none jitter
    ∧ tidalRetryWait (attempt + 1) none jitter = tidalRetryWait attempt none jitter := by
  refine ⟨rfl, ?_, rfl⟩
  simp [tidalRetryWait]
  omega

/-- Witness for the amended C8 at attempt 0 with jitter 5. -/
theorem c8_backoff_nonneg_constant_witness :
    tidalRetryWait 0 none 5 = 10 + 5
    ∧ 15 ≤ tidalRetryWait 0 none 5
    ∧ tidalRetryWait 1 none 5 = tidalRetryWait 0 none 5 :=
  c8_backoff_nonneg_constant 0 5 (by decide) (by decide)

/- ===================================================================
   TidalClient credential refresh  (client/tidal.py, lines 341-367)

   `_refresh_access_token` runs its whole body inside
   `async with self.auth_lock`, so under the cooperative asyncio
   scheduler the critical sections of concurrent callers are strictly
   serialized; N concurrent callers are therefore embedded as N
   sequential executions of the body over the shared auth state.
   Inside the lock the body first re-checks freshness
   (`if self.config.token_expiry and (float(...) - time.time() > 600):
   return`) and only then performs the network POST — directly via
   `self.session.post`, deliberately not via `_api_post`, which would
   take the shared semaphore.
   =================================================================== -/

/-- Auth state of the tidal config mutated by the refresh: the access
token and the expiry instant.  `tokenExpiry = none` stands for a falsy
`config.token_expiry` (absent or 0). -/
structure AuthState where
  accessToken : String
  tokenExpiry : Option Int
  deriving DecidableEq

/-- Outcome of the token POST to the auth endpoint: a 200 body carrying
`access_token` and `expires_in`, or a failure (network error or a body
whose `status` field is not 200 — both raise). -/
inductive RefreshOutcome where
  | success (tok : String) (expiresIn : Int)
  | failure (msg : String)
  deriving DecidableEq

/-- Observable events of an execution, used to state which
synchronization primitives a code path touches. -/
inductive Ev where
  | lockAcquire
  | lockRelease
  | semAcquire
  | semRelease
  | httpPost (url : String)
  deriving DecidableEq

/-- URL of the token refresh POST (tidal.py line 351). -/
def authTokenUrl : String := "https://auth.tidal.com/v1/oauth2/token"

/-- Freshness re-check performed inside the lock (tidal.py line 343):
the stored expiry is truthy and more than 600 seconds in the future. -/
def isFresh (now : Int) (s : AuthState) : Bool :=
  match s.tokenExpiry with
  | some e => decide (e - now > 600)
  | none => false

/-- Result of one execution of the refresh body: the raised-or-ok
outcome, the auth state afterwards, the number of network refresh calls
performed, and the trace of synchronization and network events. -/
structure RefreshOut where
  result : Except String Unit
  state : AuthState
  networkCalls : Nat
  events : List Ev

/-- Embedding of `TidalClient._refresh_access_token`.  Inside the auth
lock: if the stored token is still fresh, return without any network
call; otherwise POST to the auth endpoint directly through the session
(no semaphore).  On success the config receives the new token and
`token_expiry = expires_in + time.time()`; on failure the exception is
logged and re-raised, the config untouched. -/
def refresh_access_token (now : Int) (outcome : RefreshOutcome) (s : AuthState) :
    RefreshOut :=
  if isFresh now s then
    { result := .ok (), state := s, networkCalls := 0,
      events := [.lockAcquire, .lockRelease] }
  else
    match outcome with
    | .success tok expiresIn =>
        { result := .ok (),
          state := { accessToken := tok, tokenExpiry := some (expiresIn + now) },
          networkCalls := 1,
          events := [.lockAcquire, .httpPost authTokenUrl, .lockRelease] }
    | .failure msg =>
        { result := .error msg, state := s, networkCalls := 1,
          events := [.lockAcquire, .httpPost authTokenUrl, .lockRelease] }

/-- N concurrent callers of the refresh, serialized by the auth lock:
each runs the body on the state left by the previous one.  Returns the
final state, the total number of network refresh calls, and the token
each caller observes at the end of its own critical section. -/
def refreshCallers (now : Int) (outcome : RefreshOutcome) :
    Nat → AuthState → AuthState × Nat × List String
  | 0, s => (s, 0, [])
  | n + 1, s =>
      let r := refresh_access_token now outcome s
      let rest := refreshCallers now outcome n r.state
      (rest.1, r.networkCalls + rest.2.1, r.state.accessToken :: rest.2.2)

/-- Event trace of `TidalClient._api_post` (tidal.py lines 365-367):
an ordinary POST is performed while holding the shared semaphore. -/
def api_post_trace (url : String) : List Ev :=
  [.semAcquire, .httpPost url, .semRelease]

/- ===================================================================
   Theorems for claims C3, C4, C9
   =================================================================== -/

/-- Helper: a caller that finds the state fresh performs no network call
and leaves the state unchanged, so a run of n such callers observes the
current token n times. -/
theorem refreshCallers_fresh (now : Int) (outcome : RefreshOutcome)
    (s : AuthState) (hf : isFresh now s = true) :
    ∀ n, refreshCallers now outcome n s = (s, 0, List.replicate n s.accessToken) := by
  intro n
  induction n with
  | zero => simp [refreshCallers]
  | succ m ih =>
      simp only [refreshCallers, refresh_access_token, hf, if_true, ih]
      simp [List.replicate_succ]

/-- C3: with the session expiring (stored expiry not more than 600 s
ahead, or absent) and the refresh endpoint answering successfully with a
validity above the 600 s margin, N ≥ 1 serialized callers of the refresh
perform exactly one network refresh call, and every one of the N callers
observes the post-refresh token at the end of its critical section. -/
theorem c3_single_flight_refresh (now : Int) (outcome : RefreshOutcome)
    (s : AuthState) (tok : String) (expiresIn : Int) (n : Nat)
    (hstale : isFresh now s = false)
    (hok : outcome = .success tok expiresIn)
    (hlong : expiresIn > 600)
    (hn : 0 < n) :
    refreshCallers now outcome n s
      = ({ accessToken := tok, tokenExpiry := some (expiresIn + now) }, 1,
         List.replicate n tok) := by
  obtain ⟨m, rfl⟩ : ∃ m, n = m + 1 := ⟨n - 1, by omega⟩
  subst hok
  simp only [refreshCallers, refresh_access_token, hstale, if_false,
    Bool.false_eq_true]
  have hfresh : isFresh now
      { accessToken := tok, tokenExpiry := some (expiresIn + now) } = true := by
    simp [isFresh]
    omega
  rw [refreshCallers_fresh now _ _ hfresh m]
  simp [List.replicate_succ]

/-- Witness for C3 with three callers on a token that expired at instant
50, the clock at 1000, and a refresh granting 86400 seconds. -/
theorem c3_single_flight_refresh_witness :
    refreshCallers 1000 (.success "newTok" 86400) 3
        { accessToken := "oldTok", tokenExpiry := some 50 }
      = ({ accessToken := "newTok", tokenExpiry := some 87400 }, 1,
         List.replicate 3 "newTok") :=
  c3_single_flight_refresh 1000 _ _ "newTok" 86400 3 (by decide) rfl
    (by decide) (by decide)

/-- C4: no execution of the credential refresh ever acquires the shared
request semaphore — its event trace never contains a semaphore
acquisition, for every clock value, network outcome and auth state —
whereas an ordinary `_api_post` always holds that semaphore for its
POST.  The refresh therefore bypasses the shared permit pool on every
execution. -/
theorem c4_refresh_bypasses_semaphore :
    (∀ (now : Int) (outcome : RefreshOutcome) (s : AuthState),
        ((refresh_access_token now outcome s).events).contains Ev.semAcquire = false)
    ∧ (∀ url : String, (api_post_trace url).contains Ev.semAcquire = true) := by
  constructor
  · intro now outcome s
    cases h : isFresh now s <;> cases outcome <;>
      simp [refresh_access_token, h]
  · intro url
    simp [api_post_trace]

/-- C9: when the stored token is not fresh (so the network POST is
actually performed) and that POST fails, the refresh raises the error to
its caller, performs exactly the one failed network call, and leaves the
stored access token and expiry exactly as they were. -/
theorem c9_refresh_failure_preserves_state (now : Int) (s : AuthState)
    (msg : String) (hstale : isFresh now s = false) :
    refresh_access_token now (.failure msg) s
      = { result := .error msg, state := s, networkCalls := 1,
          events := [.lockAcquire, .httpPost authTokenUrl, .lockRelease] } := by
  simp [refresh_access_token, hstale]

/- ===================================================================
   TidalClient turbo fetch list  (client/tidal.py, lines 185-212)

   Fetch offset 0 first (with a one-shot retry dropping the
   includeContributors parameter on an exception); read totalNumberOfItems;
   if it exceeds the page size 100, create one task per remaining offset
   in `range(100, total, 100)` and `asyncio.gather(*tasks,
   return_exceptions=True)`.  gather places each result at its task
   index whatever order the tasks complete in, which we model by an
   explicit completion order writing results into an index-addressed
   buffer; a result that is an exception or lacks an "items" key
   contributes nothing.
   =================================================================== -/

/-- JSON page of a tidal listing endpoint: `totalNumberOfItems`
(defaulting to 0 when absent) and the optional `items` array (`none`
when the key is absent). -/
structure TidalPage (α : Type) where
  totalNumberOfItems : Nat
  items : Option (List α)

/-- Python `range(start, stop, step)` for a positive step. -/
def rangeStep (start stop step : Nat) : List Nat :=
  (List.range ((stop - start + step - 1) / step)).map (fun k => start + k * step)

/-- One task completion under gather: the result of task `i` is written
into slot `i` of the result buffer. -/
def gatherStep (tasks : List β) (acc : List (Option β)) (i : Nat) : List (Option β) :=
  match tasks[i]? with
  | some t => acc.set i (some t)
  | none => acc

/-- Model of `asyncio.gather`: tasks complete in the order given by
`order`, each writing its result at its own index; the buffer starts
empty. -/
def gatherModel (tasks : List β) (order : List Nat) : List (Option β) :=
  order.foldl (gatherStep tasks) (List.replicate tasks.length none)

/-- Contribution of one completed page fetch to the merged list: its
items if the request succeeded and the page has an "items" key, nothing
otherwise (gather returns the exception object, which fails the
`isinstance(page, dict) and "items" in page` test). -/
def pageItems : Except Unit (TidalPage α) → List α
  | .ok p => p.items.getD []
  | .error _ => []

/-- Contribution of one slot of the gather buffer. -/
def pageItemsOpt : Option (Except Unit (TidalPage α)) → List α
  | some r => pageItems r
  | none => []

/-- Merge of the concurrently fetched remaining pages, given the tasks
in ascending offset order and a completion order. -/
def turboGather (contrib : Bool) (fetch : Bool → Nat → Except Unit (TidalPage α))
    (offsets : List Nat) (order : List Nat) : List α :=
  ((gatherModel (offsets.map (fetch contrib)) order).map pageItemsOpt).flatten

/-- Body of the turbo fetch after a successful first page: return the
first page items if `totalNumberOfItems <= 100`, else append the merged
remaining pages for offsets `range(100, total, 100)`. -/
def turboCollect (contrib : Bool) (fetch : Bool → Nat → Except Unit (TidalPage α))
    (resp : TidalPage α) (order : List Nat) : List α :=
  if resp.totalNumberOfItems ≤ 100 then resp.items.getD []
  else resp.items.getD []
    ++ turboGather contrib fetch (rangeStep 100 resp.totalNumberOfItems 100) order

/-- Embedding of `TidalClient._turbo_fetch_list`.  `fetch c off` is the
result of the api request at offset `off`, with `c` saying whether the
includeContributors parameter is still present; on a first-page
exception the code retries once without that parameter if it was there
(a second exception then propagates) and otherwise returns an empty
list.  `order` is the completion order of the gathered page tasks. -/
def turbo_fetch_list (contrib : Bool)
    (fetch : Bool → Nat → Except Unit (TidalPage α)) (order : List Nat) :
    Except Unit (List α) :=
  match fetch contrib 0 with
  | .ok resp => .ok (turboCollect contrib fetch resp order)
  | .error _ =>
      if contrib then
        match fetch false 0 with
        | .ok resp => .ok (turboCollect false fetch resp order)
        | .error e => .error e
      else .ok []

/- ===================================================================
   Theorems for claim C6
   =================================================================== -/

/-- Helper: the gather fold preserves the buffer length. -/
theorem gatherFold_length (tasks : List β) :
    ∀ (order : List Nat) (acc : List (Option β)),
      (order.foldl (gatherStep tasks) acc).length = acc.length := by
  intro order
  induction order with
  | nil => intro acc; rfl
  | cons i rest ih =>
      intro acc
      simp only [List.foldl_cons, ih]
      unfold gatherStep
      cases tasks[i]? <;> simp

/-- Helper: slot `j` of the gather buffer after a fold holds the result
of task `j` if some completion in the order wrote it, and is otherwise
untouched. -/
theorem gatherFold_get? (tasks : List β) :
    ∀ (order : List Nat) (acc : List (Option β)),
      acc.length = tasks.length → ∀ j : Nat,
      (order.foldl (gatherStep tasks) acc)[j]?
        = if j ∈ order ∧ j < tasks.length
          then (tasks[j]?).map some else acc[j]? := by
  intro order
  induction order with
  | nil => intro acc hlen j; simp
  | cons i rest ih =>
      intro acc hlen j
      have hstep : (gatherStep tasks acc i).length = tasks.length := by
        unfold gatherStep
        cases tasks[i]? <;> simp [hlen]
      simp only [List.foldl_cons]
      rw [ih (gatherStep tasks acc i) hstep j]
      by_cases hmem : j ∈ rest ∧ j < tasks.length
      · simp only [hmem, and_true, if_true, List.mem_cons]
        have : (j = i ∨ j ∈ rest) ∧ j < tasks.length := ⟨Or.inr hmem.1, hmem.2⟩
        simp [this]
      · simp only [hmem, if_false]
        by_cases hji : j = i ∧ j < tasks.length
        · obtain ⟨rfl, hlt⟩ := hji
          have hget : tasks[j]? = some (tasks.get ⟨j, hlt⟩) := by
            simp [List.getElem?_eq_getElem hlt]
          unfold gatherStep
          rw [hget]
          simp only [Option.map_some]
          rw [List.getElem?_set_self (by omega)]
          have : (j ∈ j :: rest) ∧ j < tasks.length := ⟨List.mem_cons_self j rest, hlt⟩
          simp [this, hget]
        · have hcond : ¬ ((j ∈ i :: rest) ∧ j < tasks.length) := by
            intro hc
            rcases hc with ⟨hc1, hc2⟩
            rcases List.mem_cons.mp hc1 with h1 | h1
            · exact hji ⟨h1, hc2⟩
            · exact hmem ⟨h1, hc2⟩
          simp only [hcond, if_false]
          unfold gatherStep
          cases hti : tasks[i]? with
          | none => rfl
          | some t =>
              have hij : i ≠ j := by
                intro hij
                subst hij
                have : i < tasks.length := by
                  by_contra hge
                  rw [List.getElem?_eq_none (by omega)] at hti
                  exact Option.noConfusion hti
                exact hji ⟨rfl, this⟩
              exact List.getElem?_set_ne hij

/-- Helper: when the completion order is a permutation of the task
indices, the gather buffer is exactly the task results in task order —
completion order is irrelevant. -/
theorem gatherModel_perm (tasks : List β) (order : List Nat)
    (h : order.Perm (List.range tasks.length)) :
    gatherModel tasks order = tasks.map some := by
  apply List.ext_getElem?
  intro j
  unfold gatherModel
  rw [gatherFold_get? tasks order _ (by simp) j]
  by_cases hj : j < tasks.length
  · have hmem : j ∈ order := h.mem_iff.mpr (List.mem_range.mpr hj)
    simp [hmem, hj]
  · have hmem : j ∉ order := fun hc =>
      hj (List.mem_range.mp (h.mem_iff.mp hc))
    simp only [hmem, false_and, if_false]
    rw [List.getElem?_eq_none (by simp; omega),
        List.getElem?_eq_none (by simp; omega)]

/-- Helper: below the page size there are no further offsets. -/
theorem rangeStep_nil (total : Nat) (h : total ≤ 100) :
    rangeStep 100 total 100 = [] := by
  unfold rangeStep
  have h0 : (total - 100 + 100 - 1) / 100 = 0 := by omega
  rw [h0]
  rfl

/-- C6: when the first page fetch succeeds, the turbo fetch returns, for
any completion order of the page tasks (any permutation of the task
indices), the first page items followed by the contributions of the
remaining pages concatenated in ascending offset order — a page whose
fetch failed or whose payload lacks an items key contributing the empty
segment.  The output is thus deterministic in page order regardless of
which page finishes first, with terminally failed pages yielding partial
results rather than an error. -/
theorem c6_pagination_order (contrib : Bool)
    (fetch : Bool → Nat → Except Unit (TidalPage α)) (resp0 : TidalPage α)
    (order : List Nat)
    (h0 : fetch contrib 0 = Except.ok resp0)
    (hperm : order.Perm
      (List.range (rangeStep 100 resp0.totalNumberOfItems 100).length)) :
    turbo_fetch_list contrib fetch order
      = Except.ok (resp0.items.getD []
          ++ ((rangeStep 100 resp0.totalNumberOfItems 100).map
                (fun off => pageItems (fetch contrib off))).flatten) := by
  have hmain : turboCollect contrib fetch resp0 order
      = resp0.items.getD []
        ++ ((rangeStep 100 resp0.totalNumberOfItems 100).map
              (fun off => pageItems (fetch contrib off))).flatten := by
    unfold turboCollect
    by_cases hle : resp0.totalNumberOfItems ≤ 100
    · rw [if_pos hle, rangeStep_nil _ hle]
      simp
    · rw [if_neg hle]
      unfold turboGather
      rw [gatherModel_perm _ _ (by rwa [List.length_map])]
      rw [List.map_map, List.map_map]
      congr 2
  simp only [turbo_fetch_list, h0, hmain]

/-- Fetch fixture for the C6 witness: a listing of 237 items, pages at
offsets 0 and 100 succeeding and the page at offset 200 failing. -/
def c6fetchW : Bool → Nat → Except Unit (TidalPage Nat) :=
  fun _ off =>
    if off = 0 then .ok ⟨237, some [0, 1]⟩
    else if off = 100 then .ok ⟨237, some [2, 3]⟩
    else .error ()

/-- Witness for C6: with 237 total items, pages completing out of order
(the offset-200 task first) and the offset-200 fetch failing, the turbo
fetch still returns the pages merged in ascending offset order, the
failed page contributing nothing. -/
theorem c6_pagination_order_witness :
    turbo_fetch_list true c6fetchW [1, 0] = Except.ok [0, 1, 2, 3] :=
  (c6_pagination_order true c6fetchW ⟨237, some [0, 1]⟩ [1, 0] rfl
    (by decide)).trans (by rfl)

/-- Witness for C9 on a concrete stale state. -/
theorem c9_refresh_failure_preserves_state_witness :
    refresh_access_token 1000 (.failure "boom")
        { accessToken := "oldTok", tokenExpiry := some 50 }
      = { result := .error "boom",
          state := { accessToken := "oldTok", tokenExpiry := some 50 },
          networkCalls := 1,
          events := [.lockAcquire, .httpPost authTokenUrl, .lockRelease] } :=
  c9_refresh_failure_preserves_state 1000 _ "boom" (by decide)

/- ===================================================================
   PendingTrack.resolve, PendingSingle.resolve and Track.download
   (media/track.py, lines 46-55, 169-272, 282-391)

   The backend-specific pieces — metadata shaping
   (TrackMetadata.from_resp, AlbumMetadata.from_track_resp), the
   destination path formatting, and the ledger and filesystem
   predicates — are collaborators the resolver calls; they enter the
   embedding as components of an environment record, while the
   resolver control flow itself is translated from the source.
   =================================================================== -/

/-- Environment of one PendingTrack.resolve run.  `dbDone` is
`db.downloaded(id)`; `getMetadata` the outcome of
`client.get_metadata(id, "track")` (a network call, raising
NonStreamableError when unavailable); `fromResp` the outcome of
`TrackMetadata.from_resp` (`error` for a raised exception, `ok none`
for a None result); `getDownloadable` the outcome of
`client.get_downloadable(id, quality)` (a network call); `filePath` the
destination path computed from the metadata and the downloadable
extension; `fileExists` the `os.path.isfile` predicate. -/
structure ResolveEnv (Resp Meta Dl : Type) where
  dbDone : Bool
  getMetadata : Except String Resp
  fromResp : Resp → Except String (Option Meta)
  getDownloadable : Except String Dl
  filePath : Meta → Dl → String
  fileExists : String → Bool

/-- Observable outcome of one resolve run: the returned Track payload
(`none` is Python None, i.e. skip or non-terminal failure), the number
of backend client calls issued (get_metadata and get_downloadable),
and whether `db.set_failed` was invoked. -/
structure ResolveOut (Meta Dl : Type) where
  result : Option (Meta × Dl)
  clientCalls : Nat
  markedFailed : Bool

/-- Embedding of `PendingTrack.resolve`.  When the ledger says
downloaded, the code still fetches the metadata and the downloadable
(its comment calls this hybrid verification), computes the destination
path, and only then checks the file: present means return None, absent
means return a fresh Track for re-download.  When the ledger does not
say downloaded, the normal path fetches metadata and downloadable and
returns a Track. -/
def PendingTrack.resolve {Resp Meta Dl : Type} (env : ResolveEnv Resp Meta Dl) :
    ResolveOut Meta Dl :=
  if env.dbDone then
    match env.getMetadata with
    | .error _ => { result := none, clientCalls := 1, markedFailed := false }
    | .ok resp =>
        match env.fromResp resp with
        | .error _ => { result := none, clientCalls := 1, markedFailed := false }
        | .ok none => { result := none, clientCalls := 1, markedFailed := true }
        | .ok (some meta) =>
            match env.getDownloadable with
            | .error _ => { result := none, clientCalls := 2, markedFailed := false }
            | .ok dl =>
                if env.fileExists (env.filePath meta dl) then
                  { result := none, clientCalls := 2, markedFailed := false }
                else
                  { result := some (meta, dl), clientCalls := 2, markedFailed := false }
  else
    match env.getMetadata with
    | .error _ => { result := none, clientCalls := 1, markedFailed := false }
    | .ok resp =>
        match env.fromResp resp with
        | .error _ => { result := none, clientCalls := 1, markedFailed := false }
        | .ok none => { result := none, clientCalls := 1, markedFailed := true }
        | .ok (some meta) =>
            match env.getDownloadable with
            | .error _ => { result := none, clientCalls := 2, markedFailed := false }
            | .ok dl => { result := some (meta, dl), clientCalls := 2, markedFailed := false }

/-- Environment of one PendingSingle.resolve run; `fromTrackResp` is
`AlbumMetadata.from_track_resp` producing the album context, and
`fromResp` is `TrackMetadata.from_resp` applied to that album. -/
structure SingleEnv (Resp Alb Meta Dl : Type) where
  dbDone : Bool
  getMetadata : Except String Resp
  fromTrackResp : Resp → Except String (Option Alb)
  fromResp : Alb → Resp → Except String (Option Meta)
  getDownloadable : Except String Dl
  filePath : Alb → Meta → Dl → String
  fileExists : String → Bool

/-- Observable outcome of one PendingSingle.resolve run.  In the
ledger-done branch the `get_downloadable` call is not wrapped in a
try/except, so a NonStreamableError there propagates out of resolve
instead of becoming None; the result is therefore an `Except`. -/
structure SingleOut (Meta Dl : Type) where
  result : Except String (Option (Meta × Dl))
  clientCalls : Nat
  markedFailed : Bool

/-- Embedding of `PendingSingle.resolve` restricted to the branch the
claims are about, faithful to both branches of the source: the
ledger-done branch fetches metadata, builds album and track metadata,
fetches the downloadable, computes the path and checks the file
(present: None; absent: a Track); the normal branch fetches metadata
and downloadable and returns a Track. -/
def PendingSingle.resolve {Resp Alb Meta Dl : Type}
    (env : SingleEnv Resp Alb Meta Dl) : SingleOut Meta Dl :=
  if env.dbDone then
    match env.getMetadata with
    | .error _ => { result := .ok none, clientCalls := 1, markedFailed := false }
    | .ok resp =>
        match env.fromTrackResp resp with
        | .error _ => { result := .ok none, clientCalls := 1, markedFailed := false }
        | .ok none => { result := .ok none, clientCalls := 1, markedFailed := true }
        | .ok (some album) =>
            match env.fromResp album resp with
            | .error _ => { result := .ok none, clientCalls := 1, markedFailed := false }
            | .ok none => { result := .ok none, clientCalls := 1, markedFailed := true }
            | .ok (some meta) =>
                match env.getDownloadable with
                | .error e => { result := .error e, clientCalls := 2, markedFailed := false }
                | .ok dl =>
                    if env.fileExists (env.filePath album meta dl) then
                      { result := .ok none, clientCalls := 2, markedFailed := false }
                    else
                      { result := .ok (some (meta, dl)), clientCalls := 2,
                        markedFailed := false }
  else
    match env.getMetadata with
    | .error _ => { result := .ok none, clientCalls := 1, markedFailed := false }
    | .ok resp =>
        match env.fromTrackResp resp with
        | .error _ => { result := .ok none, clientCalls := 1, markedFailed := false }
        | .ok none => { result := .ok none, clientCalls := 1, markedFailed := true }
        | .ok (some album) =>
            match env.fromResp album resp with
            | .error _ => { result := .ok none, clientCalls := 1, markedFailed := false }
            | .ok none => { result := .ok none, clientCalls := 1, markedFailed := true }
            | .ok (some meta) =>
                match env.getDownloadable with
                | .error e => { result := .error e, clientCalls := 2, markedFailed := false }
                | .ok dl =>
                    { result := .ok (some (meta, dl)), clientCalls := 2,
                      markedFailed := false }

/-- Observable outcome of one Track.download run: how many byte-transfer
attempts were started, and which ledger updates were performed. -/
structure DownloadOut where
  transferAttempts : Nat
  setDone : Bool
  setFailed : Bool

/-- Embedding of `Track.download` (media/track.py lines 46-99).  If the
destination file already exists, no bytes are transferred and, when the
ledger does not yet record the item, it is corrected to downloaded;
otherwise the byte transfer runs, retried once locally, the second
failure marking the item failed in the ledger.  `a1ok` and `a2ok` say
whether the first and the retried transfer attempt succeed. -/
def Track.download (fileOnDisk dbDone a1ok a2ok : Bool) : DownloadOut :=
  if fileOnDisk then
    { transferAttempts := 0, setDone := !dbDone, setFailed := false }
  else if a1ok then
    { transferAttempts := 1, setDone := false, setFailed := false }
  else if a2ok then
    { transferAttempts := 2, setDone := false, setFailed := false }
  else
    { transferAttempts := 2, setDone := false, setFailed := true }

/- ===================================================================
   Theorems for claims C1 and C7
   =================================================================== -/

/-- Environment fixture for the C1 counterexample: ledger Done,
destination file present, backend answering normally. -/
def c1env : ResolveEnv Unit Unit Unit :=
  { dbDone := true, getMetadata := .ok (), fromResp := fun _ => .ok (some ()),
    getDownloadable := .ok (), filePath := fun _ _ => "track.flac",
    fileExists := fun _ => true }

/-- C1 counterexample: for an item marked Done in the ledger whose
destination file exists, resolve does return the skip result None, but
it issues two backend client calls (get_metadata and get_downloadable)
on the way, not zero. -/
theorem c1_zero_calls_counterexample :
    (PendingTrack.resolve c1env).result = none
    ∧ (PendingTrack.resolve c1env).clientCalls = 2
    ∧ (PendingTrack.resolve c1env).clientCalls ≠ 0 := by
  refine ⟨rfl, rfl, by decide⟩

/-- C1 amended: for an item marked Done in the ledger whose destination
file exists, both resolvers return the skip result None, but only after
issuing exactly two backend client calls (get_metadata and
get_downloadable) used to verify availability and recompute the
destination path before the file check — not zero network calls. -/
theorem c1_done_and_file_present_skips {Resp Meta Dl SResp Alb SMeta SDl : Type}
    (env : ResolveEnv Resp Meta Dl) (resp : Resp) (meta : Meta) (dl : Dl)
    (senv : SingleEnv SResp Alb SMeta SDl) (sresp : SResp) (alb : Alb)
    (smeta : SMeta) (sdl : SDl)
    (hdb : env.dbDone = true)
    (hmeta : env.getMetadata = .ok resp)
    (hfrom : env.fromResp resp = .ok (some meta))
    (hdl : env.getDownloadable = .ok dl)
    (hfile : env.fileExists (env.filePath meta dl) = true)
    (hsdb : senv.dbDone = true)
    (hsmeta : senv.getMetadata = .ok sresp)
    (hsalb : senv.fromTrackResp sresp = .ok (some alb))
    (hsfrom : senv.fromResp alb sresp = .ok (some smeta))
    (hsdl : senv.getDownloadable = .ok sdl)
    (hsfile : senv.fileExists (senv.filePath alb smeta sdl) = true) :
    PendingTrack.resolve env
      = { result := none, clientCalls := 2, markedFailed := false }
    ∧ PendingSingle.resolve senv
      = { result := .ok none, clientCalls := 2, markedFailed := false } := by
  constructor
  · simp [PendingTrack.resolve, hdb, hmeta, hfrom, hdl, hfile]
  · simp [PendingSingle.resolve, hsdb, hsmeta, hsalb, hsfrom, hsdl, hsfile]

/-- Environment fixture for the C1 witness on the single resolver. -/
def c1senv : SingleEnv Unit Unit Unit Unit :=
  { dbDone := true, getMetadata := .ok (),
    fromTrackResp := fun _ => .ok (some ()),
    fromResp := fun _ _ => .ok (some ()),
    getDownloadable := .ok (), filePath := fun _ _ _ => "single.flac",
    fileExists := fun _ => true }

/-- Witness for the amended C1 on the concrete environments. -/
theorem c1_done_and_file_present_skips_witness :
    PendingTrack.resolve c1env
      = { result := none, clientCalls := 2, markedFailed := false }
    ∧ PendingSingle.resolve c1senv
      = { result := .ok none, clientCalls := 2, markedFailed := false } :=
  c1_done_and_file_present_skips c1env () () () c1senv () () () ()
    rfl rfl rfl rfl rfl rfl rfl rfl rfl rfl rfl

/-- C7: ledger and filesystem reconciliation in both directions.  If
the ledger says Done but the destination file is absent, resolve
proceeds to re-acquire, returning a downloadable Track; and if the file
is present while the ledger is not marked Done, Track.download corrects
the ledger to downloaded without starting any byte transfer. -/
theorem c7_ledger_fs_reconciliation {Resp Meta Dl : Type}
    (env : ResolveEnv Resp Meta Dl) (resp : Resp) (meta : Meta) (dl : Dl)
    (a1ok a2ok : Bool)
    (hdb : env.dbDone = true)
    (hmeta : env.getMetadata = .ok resp)
    (hfrom : env.fromResp resp = .ok (some meta))
    (hdl : env.getDownloadable = .ok dl)
    (hfile : env.fileExists (env.filePath meta dl) = false) :
    (PendingTrack.resolve env).result = some (meta, dl)
    ∧ Track.download true false a1ok a2ok
      = { transferAttempts := 0, setDone := true, setFailed := false } := by
  constructor
  · simp [PendingTrack.resolve, hdb, hmeta, hfrom, hdl, hfile]
  · simp [Track.download]

/-- Environment fixture for the C7 witness: ledger Done, file missing. -/
def c7env : ResolveEnv Unit Unit Unit :=
  { dbDone := true, getMetadata := .ok (), fromResp := fun _ => .ok (some ()),
    getDownloadable := .ok (), filePath := fun _ _ => "track.flac",
    fileExists := fun _ => false }

/-- Witness for C7 on the concrete environment. -/
theorem c7_ledger_fs_reconciliation_witness :
    (PendingTrack.resolve c7env).result = some ((), ())
    ∧ Track.download true false true true
      = { transferAttempts := 0, setDone := true, setFailed := false } :=
  c7_ledger_fs_reconciliation c7env () () () true true rfl rfl rfl rfl rfl

/- ===================================================================
   TidalClient.get downloadable  (client/tidal.py, lines 223-302)

   For the non-video path: a per-session guard set `_flac_downloaded`
   is checked first; then two phases (FLAC, then M4A/AAC) iterate over
   the admissible qualities, each iteration fetching and decoding a
   playback manifest (with an endpoint fallback folded into the fetch
   outcome, since the bare `except:` around the v4 call catches
   everything); a success inserts the track id into the guard set
   before returning the downloadable.
   =================================================================== -/

/-- Decoded playback manifest, keeping the fields the control flow
reads: the `urls` array and the `codecs` string, both optional keys
(the keyId, encryptionType and restrictions fields are passed through
to the downloadable and do not influence the control flow). -/
structure Manifest where
  urls : Option (List String)
  codecs : Option String

/-- Failure of one quality's combined fetch (v4 endpoint, fallback
endpoint, base64 and JSON manifest decode): either a NonStreamableError
— re-raised immediately by the `except NonStreamableError: raise`
clause — or any other exception, which is remembered as `last_err` and
skipped. -/
inductive GdErr where
  | nonStreamable (msg : String)
  | other (msg : String)

/-- Result of one phase loop over the admissible qualities. -/
inductive PhaseRes where
  | raiseNS (msg : String)
  | found (url : String)
  | exhausted (lastErr : Option String)

/-- Python `codec.split(",")` at character level: split on every comma,
keeping empty segments. -/
def splitCommaChars : List Char → List (List Char)
  | [] => [[]]
  | c :: cs =>
      let rest := splitCommaChars cs
      if c = ',' then [] :: rest
      else
        match rest with
        | r :: rs => (c :: r) :: rs
        | [] => [[c]]

/-- Python `c.strip()`: drop whitespace from both ends. -/
def trimChars (cs : List Char) : List Char :=
  ((cs.dropWhile Char.isWhitespace).reverse.dropWhile Char.isWhitespace).reverse

/-- The codec list `[c.strip().lower() for c in codec.split(",")]`. -/
def codecsList (codec : String) : List String :=
  (splitCommaChars codec.toList).map
    (fun cs => ((trimChars cs).map Char.toLower).asString)

/-- Quality preference order tried by both phases. -/
def QUALITY_PRIORITY : List Nat := [3, 2, 1, 0]

/-- Acceptance test of phase 1: `"flac" in codecs_list`. -/
def flacAccept (l : List String) : Bool := l.contains "flac"

/-- Acceptance test of phase 2: `"m4a" in codecs_list or "aac" in
codecs_list`. -/
def m4aAccept (l : List String) : Bool := l.contains "m4a" || l.contains "aac"

/-- One phase of the downloadable search: iterate the qualities; a
NonStreamableError from the fetch re-raises, any other error is kept as
`last_err` and the quality skipped; a manifest without a `urls` key
yields the empty url and is skipped, a present but empty `urls` array
raises an IndexError caught as a generic error, an empty url or falsy
codec is skipped; the accepted codec returns its url. -/
def phaseLoop (accept : List String → Bool) (fetch : Nat → Except GdErr Manifest) :
    List Nat → Option String → PhaseRes
  | [], lastErr => .exhausted lastErr
  | q :: qs, lastErr =>
      match fetch q with
      | .error (.nonStreamable m) => .raiseNS m
      | .error (.other m) => phaseLoop accept fetch qs (some m)
      | .ok man =>
          match man.urls with
          | none => phaseLoop accept fetch qs lastErr
          | some [] => phaseLoop accept fetch qs (some "IndexError")
          | some (u :: _) =>
              if u = "" then phaseLoop accept fetch qs lastErr
              else if man.codecs.getD "flac" = "" then phaseLoop accept fetch qs lastErr
              else if accept (codecsList (man.codecs.getD "flac")) then .found u
              else phaseLoop accept fetch qs lastErr

/-- Result of `get_downloadable` for the non-video path: a downloadable
with its codec and url, or a raised NonStreamableError message. -/
inductive GdResult where
  | ok (codec url : String)
  | err (msg : String)

/-- Rendering of `last_err` inside the final error message (Python
formats None as the string None). -/
def lastErrMsg : Option String → String
  | some m => m
  | none => "None"

/-- Embedding of `TidalClient.get_downloadable` for `media_type`
"track": the `_flac_downloaded` guard (returning the state of the guard
set alongside the result), the quality filtering, phase 1 for FLAC and
phase 2 for M4A/AAC, each successful return inserting the track id into
the guard set. -/
def get_downloadable (flacDownloaded : List String) (trackId : String)
    (fetch : Nat → Except GdErr Manifest) (quality : Nat) :
    GdResult × List String :=
  if trackId ∈ flacDownloaded then
    (.err ("Track " ++ trackId ++ " already downloaded"), flacDownloaded)
  else
    let qs0 := QUALITY_PRIORITY.filter (fun q => q ≤ quality)
    let qualities := if qs0.isEmpty then QUALITY_PRIORITY else qs0
    match phaseLoop flacAccept fetch qualities none with
    | .raiseNS m => (.err m, flacDownloaded)
    | .found url => (.ok "flac" url, trackId :: flacDownloaded)
    | .exhausted le1 =>
        match phaseLoop m4aAccept fetch qualities le1 with
        | .raiseNS m => (.err m, flacDownloaded)
        | .found url => (.ok "m4a" url, trackId :: flacDownloaded)
        | .exhausted le2 =>
            (.err ("No FLAC or M4A available: " ++ lastErrMsg le2), flacDownloaded)

/- ===================================================================
   Theorem for claim C10
   =================================================================== -/

/-- C10: once `get_downloadable` has successfully returned a
downloadable for a track id within one client session, every subsequent
call for the same id — whatever the backend then answers and whatever
quality is requested — raises the NonStreamableError "already
downloaded" instead of returning a second downloadable: a per-session
at-most-once guard at the public interface. -/
theorem c10_per_session_guard (s : List String) (id : String)
    (fetch fetch2 : Nat → Except GdErr Manifest) (q q2 : Nat)
    (c u : String) (s2 : List String)
    (h : get_downloadable s id fetch q = (.ok c u, s2)) :
    (get_downloadable s2 id fetch2 q2).1
      = .err ("Track " ++ id ++ " already downloaded") := by
  have hmem : id ∈ s2 := by
    unfold get_downloadable at h
    by_cases hin : id ∈ s
    · rw [if_pos hin] at h
      simp at h
    · rw [if_neg hin] at h
      dsimp only at h
      split at h
      · simp at h
      · simp only [Prod.mk.injEq] at h
        rw [← h.2]
        exact List.mem_cons_self id s
      · split at h
        · simp at h
        · simp only [Prod.mk.injEq] at h
          rw [← h.2]
          exact List.mem_cons_self id s
        · simp at h
  unfold get_downloadable
  rw [if_pos hmem]

/-- Fetch fixture for the C10 witness: every quality yields a FLAC
manifest with one url. -/
def c10fetch : Nat → Except GdErr Manifest :=
  fun _ => .ok { urls := some ["http://cdn/a.flac"], codecs := some "flac" }

/-- Witness for C10: after the first successful call for track id 1 on
an empty session set, the second call raises the guard error. -/
theorem c10_per_session_guard_witness :
    (get_downloadable ["1"] "1" c10fetch 3).1
      = .err ("Track " ++ "1" ++ " already downloaded") :=
  c10_per_session_guard [] "1" c10fetch c10fetch 3 3 "flac" "http://cdn/a.flac"
    ["1"] rfl

end Streamrip
